import Mathlib

/-! Shallow embedding of the caching / fetch-orchestration core of the
research-paper application: error classification and retry policy
(`utils/api-utils`), the rate limiter, the browser (ephemeral) cache
(`utils/browser-cache`), the Supabase (durable) cache contract
(`lib/supabase`), the OpenAlex client transformation
(`lib/openalex-client`), and the orchestrator `OpenAlexCache`
(`searchWithCaching` / `fetchFromAPI` / `getOrFetchPaper`).

Modelling conventions:
- JavaScript timestamps (`Date.now()`, ISO strings compared through
  `new Date(...)`) are modelled as `Int` milliseconds; ISO-string
  comparison via `Date` is order-isomorphic to comparison of the
  underlying millisecond values.
- JS string truthiness (`if (s)`) is `false` exactly on the empty
  string and `undefined`; optional strings are `Option String` with
  `strTruthy` as the truthiness test.
- Promise rejection / `throw` is `Except JSError`; `async` state
  threading is explicit state passing.
- The SHA-256 query hash is used by the program only as an opaque
  deterministic key, so it is modelled by the (deterministic) tagged
  input string fed to the hash.
-/

/-- Model of a JavaScript error value as inspected by the classification
functions in `utils/api-utils` (`error?.status`, `error?.code`,
`error?.response?.status`, `error?.message`, `instanceof APIValidationError`). -/
structure JSError where
  name : String
  message : String
  status : Option Nat
  code : Option String
  responseStatus : Option Nat
  validationInstance : Bool
deriving Repr, DecidableEq

/-- Occurrence test for a character pattern at any position of a list. -/
def subListAt (pat : List Char) : List Char → Bool
  | [] => pat.isEmpty
  | c :: rest => pat.isPrefixOf (c :: rest) || subListAt pat rest

/-- JS `String.prototype.includes`: `s.includes(sub)` holds iff `sub`
occurs contiguously in `s` (and always for the empty pattern). -/
def strIncludes (s sub : String) : Bool :=
  subListAt sub.data s.data

/-- JS truthiness of an optional string: `undefined` and `''` are falsy. -/
def strTruthy : Option String → Bool
  | none => false
  | some s => !s.isEmpty

/-- Classifier `isRateLimitError` from `utils/api-utils`. -/
def isRateLimitError (e : JSError) : Bool :=
  e.status == some 429 ||
  e.responseStatus == some 429 ||
  e.code == some "RATE_LIMIT_EXCEEDED" ||
  strIncludes e.message "rate limit" ||
  strIncludes e.message "429"

/-- Classifier `isRetryableError` from `utils/api-utils`. -/
def isRetryableError (e : JSError) : Bool :=
  e.responseStatus == some 500 ||
  e.responseStatus == some 502 ||
  e.responseStatus == some 503 ||
  e.responseStatus == some 504 ||
  e.code == some "ECONNRESET" ||
  e.code == some "ETIMEDOUT" ||
  strIncludes e.message "timeout" ||
  strIncludes e.message "network" ||
  strIncludes e.message "connection"

/-- Classifier `isValidationError` from `utils/api-utils`: `error instanceof APIValidationError`. -/
def isValidationError (e : JSError) : Bool :=
  e.validationInstance

/-- Outcome of one attempt of an async operation: resolved value or rejection. -/
inductive Outcome (α : Type) where
  | ok : α → Outcome α
  | err : JSError → Outcome α
deriving Repr, DecidableEq

/-- Trace of a `retryWithBackoff` run: final result, total number of
attempts made, and the list of backoff delays actually slept. -/
structure RetryTrace (α : Type) where
  result : Except JSError α
  attempts : Nat
  delays : List Nat
deriving Repr

/-- Body of the `for (let attempt = 0; attempt <= maxRetries; attempt++)`
loop of `retryWithBackoff`; `remaining = maxRetries - attempt`, so
`attempt === maxRetries` is `remaining = 0`. The operation is modelled as
a function from the attempt index to that attempt's outcome. -/
def retryGo {α : Type} (op : Nat → Outcome α) (baseDelay : Nat) :
    Nat → Nat → RetryTrace α
  | attempt, 0 =>
    -- attempt === maxRetries: every classification rethrows the last error here
    match op attempt with
    | .ok v => ⟨.ok v, attempt + 1, []⟩
    | .err e => ⟨.error e, attempt + 1, []⟩
  | attempt, r + 1 =>
    match op attempt with
    | .ok v => ⟨.ok v, attempt + 1, []⟩
    | .err e =>
      -- don't retry on validation errors or rate limit errors
      if isValidationError e || isRateLimitError e then
        ⟨.error e, attempt + 1, []⟩
      -- only retry on retryable errors
      else if !isRetryableError e then
        ⟨.error e, attempt + 1, []⟩
      else
        let t := retryGo op baseDelay (attempt + 1) r
        ⟨t.result, t.attempts, baseDelay * 2 ^ attempt :: t.delays⟩

/-- Function `retryWithBackoff(operation, maxRetries, baseDelay)` from `utils/api-utils`. -/
def retryWithBackoff {α : Type} (op : Nat → Outcome α)
    (maxRetries : Nat) (baseDelay : Nat) : RetryTrace α :=
  retryGo op baseDelay 0 maxRetries

/-- State of the `RateLimiter` class: `minInterval` fixed at construction,
`lastRequestTime` initialised to 0. -/
structure RateLimiter where
  minInterval : Int
  lastRequestTime : Int
deriving Repr, DecidableEq

/-- Constructor `new RateLimiter(minIntervalMs)`. -/
def RateLimiter.mk0 (minIntervalMs : Int) : RateLimiter :=
  ⟨minIntervalMs, 0⟩

/-- Method `RateLimiter.waitForNextRequest()`. `now` is the value of the first
`Date.now()` read; `lateness` is the nonnegative slack between the
requested wake-up time and the second `Date.now()` read at line
`this.lastRequestTime = Date.now()` (setTimeout never wakes early, and
the clock is monotone). Returns the granted timestamp together with the
updated limiter state; the grant time is stamped into `lastRequestTime`
immediately at permission time. -/
def RateLimiter.waitForNextRequest (rl : RateLimiter) (now lateness : Int) :
    Int × RateLimiter :=
  let timeSinceLastRequest := now - rl.lastRequestTime
  let wake :=
    if timeSinceLastRequest < rl.minInterval then
      now + (rl.minInterval - timeSinceLastRequest)
    else
      now
  let grant := wake + lateness
  (grant, { rl with lastRequestTime := grant })

/-- Author record as produced by `transformResults` (`lib/openalex-client`). -/
structure Author where
  authorId : String
  name : String
deriving Repr, DecidableEq

/-- Paper record (`types/paper`), restricted to the fields read or written by
the caching core (presentation-only fields such as `concepts`, whose `score`
is a float, are not consulted by any modelled code path and are omitted). -/
structure Paper where
  paperId : String
  title : String
  abstract : Option String
  year : Option Nat
  venue : Option String
  citationCount : Nat
  url : Option String
  doi : Option String
  authors : List Author
  createdAt : Option String
  updatedAt : Option String
deriving Repr, DecidableEq

/-- Search cache entry (`types/paper` `SearchCacheEntry`); `updatedAt` and
`expiresAt` ISO strings are modelled as millisecond values. -/
structure SearchCacheEntry where
  id : String
  query : String
  results : List Paper
  totalRequested : Nat
  successfulCount : Nat
  rateLimitedCount : Nat
  updatedAt : Int
  expiresAt : Int
deriving Repr, DecidableEq

/-- Return value of `searchWithCaching` (`types/paper` `CacheResult`). -/
structure CacheResult where
  successful : List Paper
  rateLimited : Nat
  fromCache : List Paper
  totalRequested : Nat
deriving Repr, DecidableEq

/-- Value stored in a browser-cache envelope: the `localStorage` object maps
keys to `CacheItem<any>`; the program stores papers under `paper_<id>` keys
and search entries under `search_<hash>` keys. -/
inductive CacheData where
  | paper : Paper → CacheData
  | search : SearchCacheEntry → CacheData
deriving Repr, DecidableEq

/-- Browser-cache envelope `CacheItem<T> = { data, timestamp, expiresAt }`. -/
structure CacheItem where
  data : CacheData
  timestamp : Int
  expiresAt : Int
deriving Repr, DecidableEq

/-- The parsed `localStorage` blob: an association list preserving JS object
key-insertion order (existing keys keep their position on overwrite). -/
abbrev BrowserStore := List (String × CacheItem)

/-- Association-list lookup for string-keyed JS objects. -/
def lookupKey {β : Type} (key : String) : List (String × β) → Option β
  | [] => none
  | (k, v) :: rest => if k == key then some v else lookupKey key rest

/-- Property write `cache[key] = item`: overwrite in place, or append. -/
def upsertKey {β : Type} (key : String) (v : β) : List (String × β) → List (String × β)
  | [] => [(key, v)]
  | (k, w) :: rest =>
    if k == key then (k, v) :: rest else (k, w) :: upsertKey key v rest

/-- Property delete `delete cache[key]`. -/
def deleteKey {β : Type} (key : String) (l : List (String × β)) : List (String × β) :=
  l.filter (fun kv => kv.1 != key)

namespace BrowserCache

/-- Browser cache constant `CACHE_DURATION` (1 hour). -/
def CACHE_DURATION : Int := 3600000

/-- Browser cache constant `MAX_CACHE_SIZE` (50 MB of serialized JSON). -/
def MAX_CACHE_SIZE : Nat := 50 * 1024 * 1024

/-- Browser cache constant `MAX_ENTRIES`. -/
def MAX_ENTRIES : Nat := 1000

/-- Stable ascending insertion by `timestamp`, modelling the stable JS
`entries.sort(([, a], [, b]) => a.timestamp - b.timestamp)`. -/
def insertByTimestamp (x : String × CacheItem) :
    List (String × CacheItem) → List (String × CacheItem)
  | [] => [x]
  | y :: ys =>
    if x.2.timestamp < y.2.timestamp then x :: y :: ys
    else y :: insertByTimestamp x ys

/-- Stable sort by `timestamp` (oldest first). -/
def sortByTimestamp : List (String × CacheItem) → List (String × CacheItem)
  | [] => []
  | x :: xs => insertByTimestamp x (sortByTimestamp xs)

/-- Private `evictIfNeeded`: when the serialized size exceeds
`MAX_CACHE_SIZE` or the entry count exceeds `MAX_ENTRIES`, remove the
oldest `Math.floor(entries.length * 0.2)` entries by recency timestamp.
`measure` abstracts `JSON.stringify(cache).length`, which depends on the
exact JSON serialization and is kept as a parameter of the model. -/
def evictIfNeeded (measure : BrowserStore → Nat) (cache : BrowserStore) :
    BrowserStore :=
  if measure cache > MAX_CACHE_SIZE || cache.length > MAX_ENTRIES then
    let toRemove := (sortByTimestamp cache).take (cache.length / 5)
    toRemove.foldl (fun c kv => deleteKey kv.1 c) cache
  else
    cache

/-- Method `BrowserCache.get(key)` at time `now`: expired entries are
lazily deleted and reported absent; a hit refreshes the LRU recency
timestamp (written back without an eviction sweep). -/
def get (st : BrowserStore) (key : String) (now : Int) :
    Option CacheData × BrowserStore :=
  match lookupKey key st with
  | none => (none, st)
  | some item =>
    if now > item.expiresAt then
      (none, deleteKey key st)
    else
      (some item.data, upsertKey key { item with timestamp := now } st)

/-- Method `BrowserCache.set(key, data, duration?)` at time `now`; callers in
the modelled paths never pass a `duration`, so `expiresAt` is
`now + (duration || CACHE_DURATION)` with `duration : Option Int` and the
JS falsiness of `0` folded into `none`. -/
def set (measure : BrowserStore → Nat) (st : BrowserStore) (key : String)
    (data : CacheData) (now : Int) (duration : Option Int) : BrowserStore :=
  let expiresAt := now + (match duration with | some d => d | none => CACHE_DURATION)
  let cache := upsertKey key ⟨data, now, expiresAt⟩ st
  evictIfNeeded measure cache

/-- Method `BrowserCache.getPaper(paperId)`: `get` under the `paper_` key. -/
def getPaper (st : BrowserStore) (paperId : String) (now : Int) :
    Option Paper × BrowserStore :=
  match get st ("paper_" ++ paperId) now with
  | (some (.paper p), st') => (some p, st')
  | (_, st') => (none, st')

/-- Method `BrowserCache.setPaper(paper)`. -/
def setPaper (measure : BrowserStore → Nat) (st : BrowserStore) (p : Paper)
    (now : Int) : BrowserStore :=
  set measure st ("paper_" ++ p.paperId) (.paper p) now none

/-- Method `BrowserCache.getSearchResult(queryHash)`: `get` under the
`search_` key. -/
def getSearchResult (st : BrowserStore) (queryHash : String) (now : Int) :
    Option SearchCacheEntry × BrowserStore :=
  match get st ("search_" ++ queryHash) now with
  | (some (.search e), st') => (some e, st')
  | (_, st') => (none, st')

/-- Method `BrowserCache.setSearchResult(queryHash, result)`. -/
def setSearchResult (measure : BrowserStore → Nat) (st : BrowserStore)
    (queryHash : String) (result : SearchCacheEntry) (now : Int) : BrowserStore :=
  set measure st ("search_" ++ queryHash) (.search result) now none

end BrowserCache

/-- Authorship element of an OpenAlex work (`lib/openalex-client`),
restricted to the fields read by `transformResults`. -/
structure Authorship where
  author_id : String
  author_display_name : String
deriving Repr, DecidableEq

/-- OpenAlex raw work (`lib/openalex-client` `OpenAlexWork`), restricted to
the fields read by `transformResults`; nested optional accesses such as
`primary_location?.source?.display_name` are flattened to options. -/
structure OpenAlexWork where
  id : String
  display_name : String
  publication_year : Option Nat
  source_display_name : Option String
  cited_by_count : Nat
  landing_page_url : Option String
  oa_url : Option String
  doi : Option String
  authorships : List Authorship
  abstract_inverted_index : Option (List (String × List Nat))
deriving Repr, DecidableEq

/-- OpenAlex search response (`OpenAlexResponse`), restricted to the fields
the orchestrator reads. -/
structure OpenAlexResponse where
  meta_count : Nat
  results : List OpenAlexWork
deriving Repr, DecidableEq

/-- JS `a || b` on optional strings (empty string is falsy). -/
def orStr (a b : Option String) : Option String :=
  if strTruthy a then a else b

/-- JS `a || d` producing a string default (used for `paper.createdAt || now`). -/
def orDefaultStr (a : Option String) (d : String) : String :=
  match a with
  | some s => if s.isEmpty then d else s
  | none => d

/-- JS `String.prototype.split` on a single separator character:
`""` splits to `[""]`, and separators delimit (possibly empty) pieces. -/
def splitOnChar (sep : Char) : List Char → List (List Char)
  | [] => [[]]
  | c :: rest =>
    match splitOnChar sep rest with
    | [] => [[c]]
    | h :: t => if c == sep then [] :: h :: t else (c :: h) :: t

/-- ID extraction `work.id.split('/').pop() || work.id` from `transformResults`
(`pop()` of the nonempty split is its last piece; `||` falls back on the
whole id when that piece is the empty string). -/
def idTail (id : String) : String :=
  let p := String.mk ((splitOnChar '/' id.data).getLastD id.data)
  if p.isEmpty then id else p

/-- Word written at position `i` of the sparse `words` array built by
`reconstructAbstract` (later entries overwrite earlier ones; a hole
renders as the empty string under `join`). -/
def wordAt (idx : List (String × List Nat)) (i : Nat) : String :=
  (idx.foldl (fun acc wp => if wp.2.contains i then some wp.1 else acc) none).getD ""

/-- Method `reconstructAbstract(invertedIndex?)` of `OpenAlexClient`. -/
def reconstructAbstract : Option (List (String × List Nat)) → Option String
  | none => none
  | some idx =>
    let positions := (idx.map Prod.snd).flatten
    let len := match positions.max? with
      | none => 0
      | some m => m + 1
    some (String.intercalate " " ((List.range len).map (wordAt idx)))

/-- Transformation of a single raw work into the `Paper` shape, as done
elementwise by `OpenAlexClient.transformResults`; `nowISO` is the value of
`new Date().toISOString()` taken during the transformation. -/
def transformWork (nowISO : String) (work : OpenAlexWork) : Paper :=
  { paperId := idTail work.id
    title := work.display_name
    abstract := reconstructAbstract work.abstract_inverted_index
    year := work.publication_year
    venue := work.source_display_name
    citationCount := work.cited_by_count
    url := orStr work.landing_page_url work.oa_url
    doi := work.doi
    authors := work.authorships.map (fun a => ⟨idTail a.author_id, a.author_display_name⟩)
    createdAt := some nowISO
    updatedAt := some nowISO }

/-- Method `OpenAlexClient.transformResults` applied to a response's results. -/
def transformResults (nowISO : String) (works : List OpenAlexWork) : List Paper :=
  works.map (transformWork nowISO)

/-- Durable (Supabase) cache state: the `search_cache` and `papers` tables,
keyed by `id` and `paper_id` respectively. -/
structure SupaState where
  searchRows : List (String × SearchCacheEntry)
  paperRows : List (String × Paper)
deriving Repr, DecidableEq

/-- Outcome mode of one Supabase read: the query resolves normally (`ok`,
data determined by the table), resolves with an `error` field in the
result object (`errField`, the client's normal failure mode), or the
awaited promise rejects (`thrown`). -/
inductive SupaReadOutcome where
  | ok : SupaReadOutcome
  | errField : SupaReadOutcome
  | thrown : JSError → SupaReadOutcome
deriving Repr, DecidableEq

/-- Function `getCachedSearch(queryHash)` from `lib/supabase`: `error || !data`
yields null; an expired row (`new Date(expires_at) < new Date()`) is deleted
and reported absent; a rejected promise propagates to the caller. -/
def getCachedSearch (outcome : SupaReadOutcome) (supa : SupaState) (now : Int)
    (queryHash : String) : Except JSError (Option SearchCacheEntry × SupaState) :=
  match outcome with
  | .thrown e => .error e
  | .errField => .ok (none, supa)
  | .ok =>
    match lookupKey queryHash supa.searchRows with
    | none => .ok (none, supa)
    | some row =>
      if row.expiresAt < now then
        .ok (none, { supa with searchRows := deleteKey queryHash supa.searchRows })
      else
        .ok (some row, supa)

/-- Function `cacheSearchResult(entry)` from `lib/supabase`: an idempotent
upsert of the row keyed by `entry.id`. -/
def cacheSearchResultRow (supa : SupaState) (entry : SearchCacheEntry) : SupaState :=
  { supa with searchRows := upsertKey entry.id entry supa.searchRows }

/-- Function `cachePaper(paper)` from `lib/supabase`: upsert keyed by
`paper_id`, with `created_at`/`updated_at` defaulted to now when absent. -/
def cachePaperRow (supa : SupaState) (paper : Paper) (nowISO : String) : SupaState :=
  let stored := { paper with
    createdAt := some (orDefaultStr paper.createdAt nowISO)
    updatedAt := some (orDefaultStr paper.updatedAt nowISO) }
  { supa with paperRows := upsertKey paper.paperId stored supa.paperRows }

/-- Function `getPaper(paperId)` from `lib/supabase`: `error || !data` yields
null; a rejected promise propagates. -/
def getPaperRow (outcome : SupaReadOutcome) (supa : SupaState) (paperId : String) :
    Except JSError (Option Paper) :=
  match outcome with
  | .thrown e => .error e
  | .errField => .ok none
  | .ok => .ok (lookupKey paperId supa.paperRows)

/-- Combined mutable state visible to one orchestration call: the browser
(ephemeral) store and the Supabase (durable) store. -/
structure SysState where
  browser : BrowserStore
  supa : SupaState
deriving Repr, DecidableEq

/-- Environment of one `searchWithCaching` call: the clock readings and the
outcomes of every external interaction (Supabase read modes, per-attempt
upstream responses). `searchAttempt l k` is the outcome of attempt `k` of
`client.searchWorks` with limit `l` inside the top-level `retryWithBackoff`;
`workAttempt pid k` likewise for `client.getWork(pid)` inside
`getOrFetchPaper`. `measure` abstracts the serialized-size function used
by the browser cache's eviction sweep. -/
structure FetchEnv where
  now : Int
  nowISO : String
  measure : BrowserStore → Nat
  supaSearchRead : SupaReadOutcome
  searchAttempt : Nat → Nat → Outcome OpenAlexResponse
  paperRead : String → SupaReadOutcome
  workAttempt : String → Nat → Outcome OpenAlexWork
  searchWrite : Outcome Unit

/-- Method `OpenAlexCache.generateQueryHash(query, limit)`:
`CryptoJS.SHA256(query + "_" + limit).toString()`. The hash value is used
only as an opaque deterministic key, so it is modelled by the tagged
preimage string. -/
def generateQueryHash (query : String) (limit : Nat) : String :=
  "sha256:" ++ query ++ "_" ++ toString limit

/-- Method `OpenAlexCache.getOrFetchPaper(paperId)`. Returns the thrown
error or the nullable paper, the updated state, and the number of upstream
(`getWork`) attempts issued. Rate-limit-classified failures of the
retried `getWork` call are rethrown; other failures yield null. The
Supabase `getPaper` read is not wrapped in the try, so a rejection there
propagates. -/
def getOrFetchPaper (env : FetchEnv) (st : SysState) (paperId : String) :
    Except JSError (Option Paper) × SysState × Nat :=
  -- check browser cache first
  match BrowserCache.getPaper st.browser paperId env.now with
  | (some p, browser') => (.ok (some p), { st with browser := browser' }, 0)
  | (none, browser') =>
    let st := { st with browser := browser' }
    -- check Supabase cache
    match getPaperRow (env.paperRead paperId) st.supa paperId with
    | .error e => (.error e, st, 0)
    | .ok (some p) =>
      let browser'' := BrowserCache.setPaper env.measure st.browser p env.now
      (.ok (some p), { st with browser := browser'' }, 0)
    | .ok none =>
      -- fetch from API if not cached (rateLimiter.waitForNextRequest, then retry)
      let t := retryWithBackoff (env.workAttempt paperId) 3 1000
      match t.result with
      | .ok work =>
        let processedPaper := transformWork env.nowISO work
        let supa' := cachePaperRow st.supa processedPaper env.nowISO
        let browser'' := BrowserCache.setPaper env.measure st.browser processedPaper env.now
        (.ok (some processedPaper), ⟨browser'', supa'⟩, t.attempts)
      | .error e =>
        if isRateLimitError e then
          (.error e, st, t.attempts)  -- re-throw rate limit errors
        else
          (.ok none, st, t.attempts)
  
/-- Accumulator of the per-item resolution loop of `fetchFromAPI`: the
`results`, `fromCache` and `rateLimitedCount` locals, the cache state, and
the running count of upstream attempts. -/
structure FetchAcc where
  results : List Paper
  fromCache : List Paper
  rateLimitedCount : Nat
  st : SysState
  upstream : Nat
deriving Repr, DecidableEq

/-- Per-item resolution loop `for (const paper of papers) { ... }` of
`OpenAlexCache.fetchFromAPI`: items without a `paperId` are skipped; a
resolved paper is appended to `results` and, when its `createdAt` is
truthy, also to `fromCache`; a null resolution appends the transformed
search-result paper and caches it; a thrown rate-limit-classified error
increments `rateLimitedCount` and any other thrown error is logged — in
both cases the item is skipped and the loop continues. -/
def processPapers (env : FetchEnv) : List Paper → FetchAcc → FetchAcc
  | [], acc => acc
  | paper :: rest, acc =>
    if paper.paperId.isEmpty then
      -- skip papers without paperId
      processPapers env rest acc
    else
      match getOrFetchPaper env acc.st paper.paperId with
      | (.error e, st', n) =>
        if isRateLimitError e then
          processPapers env rest { acc with
            rateLimitedCount := acc.rateLimitedCount + 1
            st := st', upstream := acc.upstream + n }
        else
          processPapers env rest { acc with st := st', upstream := acc.upstream + n }
      | (.ok (some cachedPaper), st', n) =>
        let fromCache' :=
          if strTruthy cachedPaper.createdAt then acc.fromCache ++ [cachedPaper]
          else acc.fromCache
        processPapers env rest { acc with
          results := acc.results ++ [cachedPaper]
          fromCache := fromCache'
          st := st', upstream := acc.upstream + n }
      | (.ok none, st', n) =>
        -- add the new paper and cache it
        let supa' := cachePaperRow st'.supa paper env.nowISO
        let browser' := BrowserCache.setPaper env.measure st'.browser paper env.now
        processPapers env rest { acc with
          results := acc.results ++ [paper]
          st := ⟨browser', supa'⟩, upstream := acc.upstream + n }

/-- Method `OpenAlexCache.fetchFromAPI(query, limit, queryHash)`. The whole
body sits in a try/catch, so the method always returns a `CacheResult`;
on a caught error the accumulated `results`/`fromCache` are returned, with
`rateLimitedCount = limit` when the error is rate-limit classified. The
third component counts upstream attempts issued. -/
def fetchFromAPI (env : FetchEnv) (st : SysState) (query : String) (limit : Nat)
    (queryHash : String) : CacheResult × SysState × Nat :=
  -- use reduced limit to prevent server timeouts
  let safeLimit := Nat.min limit 25
  let t := retryWithBackoff (env.searchAttempt safeLimit) 3 1000
  match t.result with
  | .error e =>
    let rateLimitedCount := if isRateLimitError e then limit else 0
    (⟨[], rateLimitedCount, [], limit⟩, st, t.attempts)
  | .ok response =>
    let papers := transformResults env.nowISO response.results
    let acc := processPapers env papers ⟨[], [], 0, st, t.attempts⟩
    let searchResult : SearchCacheEntry :=
      { id := queryHash
        query := query
        results := acc.results
        totalRequested := limit
        successfulCount := acc.results.length
        rateLimitedCount := acc.rateLimitedCount
        updatedAt := env.now
        expiresAt := env.now + 3600000 }
    match env.searchWrite with
    | .err e =>
      -- the catch also covers cacheSearchResult: counts accumulated so far survive
      let rateLimitedCount :=
        if isRateLimitError e then limit else acc.rateLimitedCount
      (⟨acc.results, rateLimitedCount, acc.fromCache, limit⟩, acc.st, acc.upstream)
    | .ok _ =>
      let supa' := cacheSearchResultRow acc.st.supa searchResult
      let browser' :=
        BrowserCache.setSearchResult env.measure acc.st.browser queryHash searchResult env.now
      (⟨acc.results, acc.rateLimitedCount, acc.fromCache, limit⟩, ⟨browser', supa'⟩, acc.upstream)

/-- Method `OpenAlexCache.searchWithCaching(query, limit)`: browser tier,
then Supabase tier (with promotion), then `fetchFromAPI`. There is no
try/catch in this method, so a rejection of the Supabase read propagates
to the caller. The `Nat` component counts upstream attempts issued. -/
def searchWithCaching (env : FetchEnv) (st : SysState) (query : String)
    (limit : Nat) : Except JSError (CacheResult × SysState × Nat) :=
  let queryHash := generateQueryHash query limit
  -- 1. check browser cache first (fastest)
  match BrowserCache.getSearchResult st.browser queryHash env.now with
  | (some browserCache, browser') =>
    .ok (⟨browserCache.results, browserCache.rateLimitedCount,
          browserCache.results, browserCache.totalRequested⟩,
         { st with browser := browser' }, 0)
  | (none, browser') =>
    let st := { st with browser := browser' }
    -- 2. check Supabase cache
    match getCachedSearch env.supaSearchRead st.supa env.now queryHash with
    | .error e => .error e
    | .ok (some supabaseCache, supa') =>
      -- cache in browser for faster future access
      let browser'' :=
        BrowserCache.setSearchResult env.measure st.browser queryHash supabaseCache env.now
      .ok (⟨supabaseCache.results, supabaseCache.rateLimitedCount,
            supabaseCache.results, supabaseCache.totalRequested⟩,
           ⟨browser'', supa'⟩, 0)
    | .ok (none, supa') =>
      -- 3. make API calls for missing papers
      .ok (fetchFromAPI env ⟨st.browser, supa'⟩ query limit queryHash)

/-! Concrete scenario data used to instantiate the theorems below: a small
family of OpenAlex works, realistic error values of each classification,
and environments for a healthy upstream, a rate-limited item, and failing
upstreams. -/

/-- Demo raw work number `i`, with the OpenAlex URL-shaped id. -/
def demoWork (i : Nat) : OpenAlexWork :=
  { id := "https://openalex.org/W" ++ toString i
    display_name := "Paper " ++ toString i
    publication_year := some 2020
    source_display_name := some "Venue"
    cited_by_count := i
    landing_page_url := some "https://example.org/p"
    oa_url := none
    doi := none
    authorships := []
    abstract_inverted_index := none }

/-- First `n` demo works (ids W1..Wn). -/
def demoWorks (n : Nat) : List OpenAlexWork :=
  (List.range n).map (fun i => demoWork (i + 1))

/-- Unclassified error: neither validation, nor rate-limited, nor retryable. -/
def unclassifiedErr : JSError :=
  ⟨"Error", "something odd happened", none, none, none, false⟩

/-- Rate-limit-classified error (status 429). -/
def rateLimitErr : JSError :=
  ⟨"Error", "OpenAlex API error: 429 Too Many Requests", some 429, none, none, false⟩

/-- Retryable-classified error (ETIMEDOUT). -/
def timeoutErr : JSError :=
  ⟨"Error", "timeout of 10000ms exceeded", none, some "ETIMEDOUT", none, false⟩

/-- Validation-classified error (an `APIValidationError` instance). -/
def validationErr : JSError :=
  ⟨"APIValidationError", "Query is required and must be a string", none, none, none, true⟩

/-- Rejection of the durable-cache read promise (e.g. the fetch inside the
Supabase client failing). -/
def durableReadErr : JSError :=
  ⟨"TypeError", "fetch failed", none, none, none, false⟩

/-- Upstream `getWork` oracle serving exactly the given works by id. -/
def demoGetWork (works : List OpenAlexWork) (pid : String) : Outcome OpenAlexWork :=
  match works.find? (fun w => idTail w.id == pid) with
  | some w => .ok w
  | none => .err unclassifiedErr

/-- Both cache tiers empty. -/
def emptyState : SysState := ⟨[], ⟨[], []⟩⟩

/-- Baseline environment: time 0, zero-size measure, healthy Supabase,
empty upstream. -/
def baseEnv : FetchEnv :=
  { now := 0
    nowISO := "2026-01-01T00:00:00.000Z"
    measure := fun _ => 0
    supaSearchRead := .ok
    searchAttempt := fun _ _ => .ok ⟨0, []⟩
    paperRead := fun _ => .ok
    workAttempt := fun _ _ => .err unclassifiedErr
    searchWrite := .ok () }

/-- Healthy upstream returning 10 items for the batch search and serving
each item by id. -/
def healthy10Env : FetchEnv :=
  { baseEnv with
    searchAttempt := fun _ _ => .ok ⟨10, demoWorks 10⟩
    workAttempt := fun pid _ => demoGetWork (demoWorks 10) pid }

/-- Upstream returning a 5-item batch where resolving item 3 (id `W3`)
always fails with a rate-limit-classified error and the rest succeed. -/
def rateLimitItem3Env : FetchEnv :=
  { baseEnv with
    searchAttempt := fun _ _ => .ok ⟨5, demoWorks 5⟩
    workAttempt := fun pid _ =>
      if pid == "W3" then .err rateLimitErr else demoGetWork (demoWorks 5) pid }

/-- Upstream whose batch search fails with the given error at every attempt. -/
def batchFailEnv (e : JSError) : FetchEnv :=
  { baseEnv with searchAttempt := fun _ _ => .err e }

/-- Environment whose durable-cache search read rejects (throws). -/
def durableThrowEnv : FetchEnv :=
  { baseEnv with supaSearchRead := .thrown durableReadErr }

/-- Environment whose durable-cache search read reports an error through the
result object (the Supabase client's normal failure mode). -/
def durableErrFieldEnv : FetchEnv :=
  { baseEnv with supaSearchRead := .errField }

/-- Demo search cache entry holding the transformed demo papers. -/
def demoEntry : SearchCacheEntry :=
  { id := generateQueryHash "transformer" 10
    query := "transformer"
    results := transformResults "2026-01-01T00:00:00.000Z" (demoWorks 10)
    totalRequested := 10
    successfulCount := 10
    rateLimitedCount := 0
    updatedAt := 0
    expiresAt := 3600000 }

/-- Environment whose durable-cache paper read rejects with an unclassified
error for every paper id. -/
def paperReadThrowEnv : FetchEnv :=
  { baseEnv with paperRead := fun _ => .thrown unclassifiedErr }

set_option maxRecDepth 10000

/-- Association-list lookup after an upsert of the same key finds the
upserted value. -/
theorem lookupKey_upsertKey_self {β : Type} (k : String) (v : β) :
    ∀ l : List (String × β), lookupKey k (upsertKey k v l) = some v := by
  intro l
  induction l with
  | nil => simp [upsertKey, lookupKey]
  | cons kv rest ih =>
    by_cases h : kv.1 == k
    · simp [upsertKey, lookupKey, h]
    · simp [upsertKey, lookupKey, h, ih]

/-- Eviction sweep is the identity while both browser-cache bounds hold. -/
theorem evictIfNeeded_of_small (measure : BrowserStore → Nat) (c : BrowserStore)
    (h1 : measure c ≤ BrowserCache.MAX_CACHE_SIZE)
    (h2 : c.length ≤ BrowserCache.MAX_ENTRIES) :
    BrowserCache.evictIfNeeded measure c = c := by
  have e1 : ¬ measure c > BrowserCache.MAX_CACHE_SIZE := Nat.not_lt.mpr h1
  have e2 : ¬ c.length > BrowserCache.MAX_ENTRIES := Nat.not_lt.mpr h2
  simp [BrowserCache.evictIfNeeded, e1, e2]

/-- Per-item resolution loop preserves the invariant that `fromCache` is a
subset of `results`. -/
theorem processPapers_subset (env : FetchEnv) (ps : List Paper) :
    ∀ acc : FetchAcc, acc.fromCache ⊆ acc.results →
    (processPapers env ps acc).fromCache ⊆ (processPapers env ps acc).results := by
  induction ps with
  | nil => intro acc h; simpa [processPapers] using h
  | cons p rest ih =>
    intro acc h
    rw [processPapers]
    split
    · exact ih acc h
    · split
      · split
        · exact ih _ h
        · exact ih _ h
      · refine ih _ ?_
        simp only []
        split
        · exact List.append_subset.mpr
            ⟨h.trans (List.subset_append_left _ _), List.subset_append_right _ _⟩
        · exact h.trans (List.subset_append_left _ _)
      · refine ih _ ?_
        exact h.trans (List.subset_append_left _ _)

/-- Every `CacheResult` produced by `fetchFromAPI` has `fromCache` a subset
of `successful`. -/
theorem fetchFromAPI_subset (env : FetchEnv) (st : SysState) (q : String) (l : Nat)
    (qh : String) :
    (fetchFromAPI env st q l qh).1.fromCache ⊆ (fetchFromAPI env st q l qh).1.successful := by
  unfold fetchFromAPI
  cases hr : (retryWithBackoff (env.searchAttempt (Nat.min l 25)) 3 1000).result with
  | error e => simp [hr]
  | ok response =>
    simp only [hr]
    cases hw : env.searchWrite with
    | err e =>
      simp only [hw]
      exact processPapers_subset env _ _ (by simp)
    | ok u =>
      simp only [hw]
      exact processPapers_subset env _ _ (by simp)

/-- Claim C1 (refuted cold-cache half, confirmed repeat-call half): on a cold
cache (both tiers empty) with a healthy upstream returning 10 items,
`searchWithCaching "transformer" 10` returns `successful.length = 10`,
`rateLimited = 0` and `totalRequested = 10` as claimed, but
`fromCache.length = 10` rather than the claimed `fromCache = []`: during
per-item resolution every fresh paper is re-fetched by id through
`getOrFetchPaper`, and `transformResults` always stamps a truthy
`createdAt`, so the `if (cachedPaper.createdAt)` test in `fetchFromAPI`
marks every freshly fetched paper as from-cache. The identical repeat call
within the TTL window does return `fromCache.length = 10` with zero
upstream calls (the `Nat` component counts upstream attempts; the cold
call makes 11 of them: 1 batch search plus 10 by-id fetches). -/
theorem searchWithCaching_cold_cache_end_to_end :
    (match searchWithCaching healthy10Env emptyState "transformer" 10 with
     | .ok (res, _, n) =>
       (res.successful.length, res.fromCache.length, res.rateLimited, res.totalRequested, n)
     | .error _ => (0, 0, 0, 0, 0)) = (10, 10, 0, 10, 11) ∧
    (match searchWithCaching healthy10Env emptyState "transformer" 10 with
     | .ok (_, st1, _) =>
       (match searchWithCaching { healthy10Env with now := 1000 } st1 "transformer" 10 with
        | .ok (res2, _, n2) => (res2.fromCache.length, n2)
        | .error _ => (0, 0))
     | .error _ => (0, 0)) = (10, 0) := by
  constructor <;> decide

/-- Claim C2 counterexample: an operation that always fails with an
Unclassified error (neither Validation, nor RateLimited, nor Retryable) is
attempted exactly once by `retryWithBackoff` with a budget of 3 retries,
and the error is rethrown — it is not retried up to the budget, refuting
the claim that Unclassified failures are treated as retryable by default. -/
theorem retry_unclassified_not_retried_cx :
    (retryWithBackoff (fun _ => (Outcome.err unclassifiedErr : Outcome Nat)) 3 1000).attempts = 1 ∧
    (retryWithBackoff (fun _ => (Outcome.err unclassifiedErr : Outcome Nat)) 3 1000).result =
      Except.error unclassifiedErr :=
  And.intro rfl rfl

/-- Claim C2 (amended): a failure classified as neither Validation, nor
RateLimited, nor Retryable is treated as non-retryable: `retryWithBackoff`
rethrows it immediately after the first attempt (one attempt, no backoff
sleeps), for every retry budget and base delay. -/
theorem retry_unclassified_rethrown_first_attempt {α : Type}
    (op : Nat → Outcome α) (m b : Nat) (e : JSError)
    (h0 : op 0 = .err e)
    (h1 : isValidationError e = false)
    (h2 : isRateLimitError e = false)
    (h3 : isRetryableError e = false) :
    retryWithBackoff op m b = ⟨.error e, 1, []⟩ := by
  cases m <;> simp [retryWithBackoff, retryGo, h0, h1, h2, h3]

/-- Witness for C2 (amended) at a concrete unclassified error. -/
theorem retry_unclassified_rethrown_first_attempt_witness :
    (fun _ => (Outcome.err unclassifiedErr : Outcome Nat)) 0 = .err unclassifiedErr ∧
    isValidationError unclassifiedErr = false ∧
    isRateLimitError unclassifiedErr = false ∧
    isRetryableError unclassifiedErr = false ∧
    retryWithBackoff (fun _ => (Outcome.err unclassifiedErr : Outcome Nat)) 3 1000 =
      ⟨.error unclassifiedErr, 1, []⟩ :=
  ⟨rfl, by decide, by decide, by decide,
   retry_unclassified_rethrown_first_attempt _ 3 1000 unclassifiedErr rfl
     (by decide) (by decide) (by decide)⟩

/-- Claim C3 counterexample: when the durable-cache read inside
`searchWithCaching` rejects (throws), the orchestrator does not catch it:
the error propagates out of `searchWithCaching` and aborts the caller's
request instead of falling through to an upstream fetch — there is no
try/catch around the cache-check steps. -/
theorem searchWithCaching_durable_throw_aborts_cx :
    searchWithCaching durableThrowEnv emptyState "transformer" 10 =
      Except.error durableReadErr := rfl

/-- Claim C3 (amended): a durable-cache read failure reported through the
Supabase result object's `error` field — the client's normal failure mode —
is converted to a null cache miss inside `getCachedSearch`, so
`searchWithCaching` falls through to the upstream fetch; only a thrown
(rejected-promise) error escapes uncaught. -/
theorem searchWithCaching_durable_errField_falls_through
    (env : FetchEnv) (st : SysState) (q : String) (l : Nat) (b' : BrowserStore)
    (hmode : env.supaSearchRead = .errField)
    (hmiss : BrowserCache.getSearchResult st.browser (generateQueryHash q l) env.now = (none, b')) :
    searchWithCaching env st q l =
      .ok (fetchFromAPI env ⟨b', st.supa⟩ q l (generateQueryHash q l)) := by
  simp only [searchWithCaching, hmiss, hmode, getCachedSearch]

/-- Witness for C3 (amended) on empty caches. -/
theorem searchWithCaching_durable_errField_falls_through_witness :
    durableErrFieldEnv.supaSearchRead = .errField ∧
    BrowserCache.getSearchResult emptyState.browser (generateQueryHash "q" 1)
      durableErrFieldEnv.now = (none, []) ∧
    searchWithCaching durableErrFieldEnv emptyState "q" 1 =
      .ok (fetchFromAPI durableErrFieldEnv ⟨[], emptyState.supa⟩ "q" 1 (generateQueryHash "q" 1)) :=
  ⟨rfl, rfl,
   searchWithCaching_durable_errField_falls_through durableErrFieldEnv emptyState "q" 1 [] rfl rfl⟩

/-- Claim C4: during per-item resolution of an upstream batch, an item whose
resolution throws a RateLimited-classified error increments the
`rateLimited` count and is skipped (the loop continues on the rest with
`results` and `fromCache` untouched); an item whose resolution throws any
other error is logged and skipped without incrementing the count or
aborting the batch; and concretely, a 5-item batch where exactly item 3
(id `W3`) fails RateLimited and the rest succeed yields
`successful.length = 4` and `rateLimited = 1`. -/
theorem fetchFromAPI_per_item_rate_limit_skips
    (env1 : FetchEnv) (rest1 : List Paper) (acc1 : FetchAcc) (p1 : Paper)
    (e1 : JSError) (s1 : SysState) (n1 : Nat)
    (env2 : FetchEnv) (rest2 : List Paper) (acc2 : FetchAcc) (p2 : Paper)
    (e2 : JSError) (s2 : SysState) (n2 : Nat)
    (hid1 : p1.paperId.isEmpty = false)
    (hres1 : getOrFetchPaper env1 acc1.st p1.paperId = (.error e1, s1, n1))
    (hrl1 : isRateLimitError e1 = true)
    (hid2 : p2.paperId.isEmpty = false)
    (hres2 : getOrFetchPaper env2 acc2.st p2.paperId = (.error e2, s2, n2))
    (hrl2 : isRateLimitError e2 = false) :
    processPapers env1 (p1 :: rest1) acc1 =
      processPapers env1 rest1 { acc1 with
        rateLimitedCount := acc1.rateLimitedCount + 1, st := s1,
        upstream := acc1.upstream + n1 } ∧
    processPapers env2 (p2 :: rest2) acc2 =
      processPapers env2 rest2 { acc2 with st := s2, upstream := acc2.upstream + n2 } ∧
    ((fetchFromAPI rateLimitItem3Env emptyState "q" 5 "qh").1.successful.length = 4 ∧
     (fetchFromAPI rateLimitItem3Env emptyState "q" 5 "qh").1.rateLimited = 1) := by
  refine ⟨?_, ?_, by decide, by decide⟩
  · simp only [processPapers, hid1, hres1, hrl1]
    rfl
  · simp only [processPapers, hid2, hres2, hrl2]
    rfl

/-- Witness for C4: the RateLimited step at item `W3` of the concrete
5-item scenario and a non-RateLimited thrown error at item `W1` under a
rejecting durable paper read. -/
theorem fetchFromAPI_per_item_rate_limit_skips_witness :
    ((transformWork "t" (demoWork 3)).paperId.isEmpty = false ∧
     getOrFetchPaper rateLimitItem3Env emptyState (transformWork "t" (demoWork 3)).paperId =
       (.error rateLimitErr, emptyState, 1) ∧
     isRateLimitError rateLimitErr = true) ∧
    ((transformWork "t" (demoWork 1)).paperId.isEmpty = false ∧
     getOrFetchPaper paperReadThrowEnv emptyState (transformWork "t" (demoWork 1)).paperId =
       (.error unclassifiedErr, emptyState, 0) ∧
     isRateLimitError unclassifiedErr = false) ∧
    (processPapers rateLimitItem3Env [transformWork "t" (demoWork 3)] ⟨[], [], 0, emptyState, 0⟩ =
      processPapers rateLimitItem3Env []
        { FetchAcc.mk [] [] 0 emptyState 0 with
          rateLimitedCount := 0 + 1, st := emptyState, upstream := 0 + 1 } ∧
     processPapers paperReadThrowEnv [transformWork "t" (demoWork 1)] ⟨[], [], 0, emptyState, 0⟩ =
      processPapers paperReadThrowEnv []
        { FetchAcc.mk [] [] 0 emptyState 0 with st := emptyState, upstream := 0 + 0 } ∧
     ((fetchFromAPI rateLimitItem3Env emptyState "q" 5 "qh").1.successful.length = 4 ∧
      (fetchFromAPI rateLimitItem3Env emptyState "q" 5 "qh").1.rateLimited = 1)) :=
  ⟨⟨by decide, rfl, by decide⟩, ⟨by decide, rfl, by decide⟩,
   fetchFromAPI_per_item_rate_limit_skips
     rateLimitItem3Env [] ⟨[], [], 0, emptyState, 0⟩ (transformWork "t" (demoWork 3))
     rateLimitErr emptyState 1
     paperReadThrowEnv [] ⟨[], [], 0, emptyState, 0⟩ (transformWork "t" (demoWork 1))
     unclassifiedErr emptyState 0
     (by decide) rfl (by decide) (by decide) rfl (by decide)⟩

/-- Claim C5: when the top-level upstream batch call fails after retry
exhaustion, `fetchFromAPI` (hence `searchWithCaching`) still returns a
`CacheResult` — its return type admits no thrown exception — with
`successful = []`, `fromCache = []`, `totalRequested = limit`, and
`rateLimited = limit` when the surviving error is RateLimited-classified or
`rateLimited = 0` otherwise. -/
theorem fetchFromAPI_batch_failure_returns_result
    (env : FetchEnv) (st : SysState) (q : String) (l : Nat) (qh : String) (e : JSError)
    (hfail : (retryWithBackoff (env.searchAttempt (Nat.min l 25)) 3 1000).result = .error e) :
    (fetchFromAPI env st q l qh).1 =
      ⟨[], if isRateLimitError e then l else 0, [], l⟩ := by
  unfold fetchFromAPI
  simp only [hfail]

/-- Witness for C5 at a rate-limited batch failure with limit 10. -/
theorem fetchFromAPI_batch_failure_returns_result_witness :
    (retryWithBackoff ((batchFailEnv rateLimitErr).searchAttempt (Nat.min 10 25)) 3 1000).result =
      .error rateLimitErr ∧
    (fetchFromAPI (batchFailEnv rateLimitErr) emptyState "transformer" 10 "qh").1 =
      ⟨[], if isRateLimitError rateLimitErr then 10 else 0, [], 10⟩ :=
  ⟨rfl, fetchFromAPI_batch_failure_returns_result _ _ _ _ _ _ rfl⟩

/-- Claim C6: `retryWithBackoff` attempt counts and delays — an operation
that always fails Validation-classified is attempted exactly once and the
error rethrown; one that always fails RateLimited-classified is attempted
exactly once; one that always fails Retryable-classified with
`maxRetries = 3` and base delay `b` is attempted exactly 4 times with
inter-attempt delays `b, 2·b, 4·b`, after which the last error is rethrown
unchanged. -/
theorem retryWithBackoff_attempt_counts_and_delays {α : Type}
    (m b : Nat) (ev er et : JSError)
    (hv : isValidationError ev = true)
    (hr : isRateLimitError er = true)
    (ht1 : isRetryableError et = true)
    (ht2 : isValidationError et = false)
    (ht3 : isRateLimitError et = false) :
    retryWithBackoff (fun _ => (Outcome.err ev : Outcome α)) m b = ⟨.error ev, 1, []⟩ ∧
    retryWithBackoff (fun _ => (Outcome.err er : Outcome α)) m b = ⟨.error er, 1, []⟩ ∧
    retryWithBackoff (fun _ => (Outcome.err et : Outcome α)) 3 b =
      ⟨.error et, 4, [b, 2 * b, 4 * b]⟩ := by
  refine ⟨?_, ?_, ?_⟩
  · cases m <;> simp [retryWithBackoff, retryGo, hv]
  · cases m <;> simp [retryWithBackoff, retryGo, hr]
  · simp [retryWithBackoff, retryGo, ht1, ht2, ht3]
    exact ⟨Nat.mul_comm b 2, Nat.mul_comm b 4⟩

/-- Witness for C6 at concrete errors of each classification. -/
theorem retryWithBackoff_attempt_counts_and_delays_witness :
    isValidationError validationErr = true ∧
    isRateLimitError rateLimitErr = true ∧
    isRetryableError timeoutErr = true ∧
    isValidationError timeoutErr = false ∧
    isRateLimitError timeoutErr = false ∧
    (retryWithBackoff (fun _ => (Outcome.err validationErr : Outcome Nat)) 5 1000 =
        ⟨.error validationErr, 1, []⟩ ∧
     retryWithBackoff (fun _ => (Outcome.err rateLimitErr : Outcome Nat)) 5 1000 =
        ⟨.error rateLimitErr, 1, []⟩ ∧
     retryWithBackoff (fun _ => (Outcome.err timeoutErr : Outcome Nat)) 3 1000 =
        ⟨.error timeoutErr, 4, [1000, 2 * 1000, 4 * 1000]⟩) :=
  ⟨by decide, by decide, by decide, by decide, by decide,
   retryWithBackoff_attempt_counts_and_delays 5 1000 validationErr rateLimitErr timeoutErr
     (by decide) (by decide) (by decide) (by decide) (by decide)⟩

/-- Claim C7: when `searchWithCaching` finds an unexpired entry for the
derived key in the ephemeral tier it returns
`CacheResult{successful = fromCache = entry.results,
rateLimited = entry.rateLimitedCount}` with zero upstream calls; otherwise,
when it finds an unexpired entry in the durable tier, it writes that entry
into the ephemeral tier (promotion) and returns the equivalent
`CacheResult`, again with zero upstream calls — and, provided the eviction
bounds hold, the promoted entry is subsequently retrievable from the
ephemeral tier for the duration of its fresh envelope TTL. -/
theorem searchWithCaching_cache_hit_paths
    (env1 : FetchEnv) (st1 : SysState) (q1 : String) (l1 : Nat)
    (entry1 : SearchCacheEntry) (b1 : BrowserStore)
    (env2 : FetchEnv) (st2 : SysState) (q2 : String) (l2 : Nat)
    (entry2 : SearchCacheEntry) (b2 : BrowserStore) (supa2 : SupaState) (tLater : Int)
    (ha : BrowserCache.getSearchResult st1.browser (generateQueryHash q1 l1) env1.now
            = (some entry1, b1))
    (hb : BrowserCache.getSearchResult st2.browser (generateQueryHash q2 l2) env2.now
            = (none, b2))
    (hd : getCachedSearch env2.supaSearchRead st2.supa env2.now (generateQueryHash q2 l2)
            = .ok (some entry2, supa2))
    (hm : env2.measure (upsertKey ("search_" ++ generateQueryHash q2 l2)
            ⟨.search entry2, env2.now, env2.now + BrowserCache.CACHE_DURATION⟩ b2)
            ≤ BrowserCache.MAX_CACHE_SIZE)
    (hn : (upsertKey ("search_" ++ generateQueryHash q2 l2)
            ⟨.search entry2, env2.now, env2.now + BrowserCache.CACHE_DURATION⟩ b2).length
            ≤ BrowserCache.MAX_ENTRIES)
    (hnow : tLater ≤ env2.now + BrowserCache.CACHE_DURATION) :
    searchWithCaching env1 st1 q1 l1 =
      .ok (⟨entry1.results, entry1.rateLimitedCount, entry1.results, entry1.totalRequested⟩,
           ⟨b1, st1.supa⟩, 0) ∧
    searchWithCaching env2 st2 q2 l2 =
      .ok (⟨entry2.results, entry2.rateLimitedCount, entry2.results, entry2.totalRequested⟩,
           ⟨BrowserCache.setSearchResult env2.measure b2 (generateQueryHash q2 l2) entry2 env2.now,
            supa2⟩, 0) ∧
    (BrowserCache.getSearchResult
        (BrowserCache.setSearchResult env2.measure b2 (generateQueryHash q2 l2) entry2 env2.now)
        (generateQueryHash q2 l2) tLater).1 = some entry2 := by
  refine ⟨?_, ?_, ?_⟩
  · simp only [searchWithCaching, ha]
  · simp only [searchWithCaching, hb, hd]
  · have hset : BrowserCache.setSearchResult env2.measure b2 (generateQueryHash q2 l2)
        entry2 env2.now =
        upsertKey ("search_" ++ generateQueryHash q2 l2)
          ⟨.search entry2, env2.now, env2.now + BrowserCache.CACHE_DURATION⟩ b2 := by
      unfold BrowserCache.setSearchResult BrowserCache.set
      exact evictIfNeeded_of_small _ _ hm hn
    rw [hset]
    unfold BrowserCache.getSearchResult BrowserCache.get
    rw [lookupKey_upsertKey_self]
    have hx : ¬ tLater > env2.now + BrowserCache.CACHE_DURATION := Int.not_lt.mpr hnow
    simp [hx]

/-- Witness for C7: an ephemeral hit on a browser store holding the demo
entry, and a durable hit on an empty browser store with the demo entry in
the Supabase tier, promoted and then retrievable at time 100. -/
theorem searchWithCaching_cache_hit_paths_witness :
    BrowserCache.getSearchResult
      (SysState.mk [("search_" ++ generateQueryHash "transformer" 10,
         CacheItem.mk (.search demoEntry) 0 3600000)] ⟨[], []⟩).browser
      (generateQueryHash "transformer" 10) baseEnv.now =
      (some demoEntry,
       [("search_" ++ generateQueryHash "transformer" 10,
         CacheItem.mk (.search demoEntry) 0 3600000)]) ∧
    BrowserCache.getSearchResult
      (SysState.mk [] ⟨[(generateQueryHash "transformer" 10, demoEntry)], []⟩).browser
      (generateQueryHash "transformer" 10) baseEnv.now = (none, []) ∧
    getCachedSearch baseEnv.supaSearchRead
      (SysState.mk [] ⟨[(generateQueryHash "transformer" 10, demoEntry)], []⟩).supa
      baseEnv.now (generateQueryHash "transformer" 10) =
      .ok (some demoEntry, ⟨[(generateQueryHash "transformer" 10, demoEntry)], []⟩) ∧
    baseEnv.measure (upsertKey ("search_" ++ generateQueryHash "transformer" 10)
      (CacheItem.mk (.search demoEntry) baseEnv.now
        (baseEnv.now + BrowserCache.CACHE_DURATION)) []) ≤
      BrowserCache.MAX_CACHE_SIZE ∧
    (upsertKey ("search_" ++ generateQueryHash "transformer" 10)
      (CacheItem.mk (.search demoEntry) baseEnv.now
        (baseEnv.now + BrowserCache.CACHE_DURATION)) []).length ≤
      BrowserCache.MAX_ENTRIES ∧
    (100:Int) ≤ baseEnv.now + BrowserCache.CACHE_DURATION ∧
    (searchWithCaching baseEnv
       (SysState.mk [("search_" ++ generateQueryHash "transformer" 10,
          CacheItem.mk (.search demoEntry) 0 3600000)] ⟨[], []⟩) "transformer" 10 =
       .ok (⟨demoEntry.results, demoEntry.rateLimitedCount, demoEntry.results,
             demoEntry.totalRequested⟩,
            ⟨[("search_" ++ generateQueryHash "transformer" 10,
               CacheItem.mk (.search demoEntry) 0 3600000)], ⟨[], []⟩⟩, 0) ∧
     searchWithCaching baseEnv
       (SysState.mk [] ⟨[(generateQueryHash "transformer" 10, demoEntry)], []⟩) "transformer" 10 =
       .ok (⟨demoEntry.results, demoEntry.rateLimitedCount, demoEntry.results,
             demoEntry.totalRequested⟩,
            ⟨BrowserCache.setSearchResult baseEnv.measure []
               (generateQueryHash "transformer" 10) demoEntry baseEnv.now,
             ⟨[(generateQueryHash "transformer" 10, demoEntry)], []⟩⟩, 0) ∧
     (BrowserCache.getSearchResult
        (BrowserCache.setSearchResult baseEnv.measure []
          (generateQueryHash "transformer" 10) demoEntry baseEnv.now)
        (generateQueryHash "transformer" 10) 100).1 = some demoEntry) :=
  ⟨rfl, rfl, rfl, by decide, by decide, by decide,
   searchWithCaching_cache_hit_paths baseEnv
     (SysState.mk [("search_" ++ generateQueryHash "transformer" 10,
        CacheItem.mk (.search demoEntry) 0 3600000)] ⟨[], []⟩) "transformer" 10
     demoEntry
     [("search_" ++ generateQueryHash "transformer" 10,
       CacheItem.mk (.search demoEntry) 0 3600000)]
     baseEnv (SysState.mk [] ⟨[(generateQueryHash "transformer" 10, demoEntry)], []⟩)
     "transformer" 10 demoEntry [] ⟨[(generateQueryHash "transformer" 10, demoEntry)], []⟩ 100
     rfl rfl rfl (by decide) (by decide) (by decide)⟩

/-- Claim C8: neither cache tier serves an entry whose `expiresAt` is in the
past — an ephemeral `get()` on an expired entry deletes it and returns
null; a durable `getCachedSearch()` on an expired row deletes it and
returns null; and conversely, whenever either tier serves a value, the
corresponding entry was unexpired at read time. -/
theorem cache_tiers_never_serve_expired
    (st : BrowserStore) (key : String) (now : Int) (item : CacheItem)
    (supa : SupaState) (qh : String) (row : SearchCacheEntry)
    (hb : lookupKey key st = some item) (hexp : now > item.expiresAt)
    (hs : lookupKey qh supa.searchRows = some row) (hexp2 : row.expiresAt < now) :
    BrowserCache.get st key now = (none, deleteKey key st) ∧
    getCachedSearch .ok supa now qh =
      .ok (none, { supa with searchRows := deleteKey qh supa.searchRows }) ∧
    (∀ (st3 : BrowserStore) (key3 : String) (now3 : Int) (d : CacheData) (st4 : BrowserStore),
      BrowserCache.get st3 key3 now3 = (some d, st4) →
      ∃ it : CacheItem, lookupKey key3 st3 = some it ∧ now3 ≤ it.expiresAt ∧ d = it.data) ∧
    (∀ (sp : SupaState) (qh3 : String) (now3 : Int) (entry : SearchCacheEntry) (sp2 : SupaState),
      getCachedSearch .ok sp now3 qh3 = .ok (some entry, sp2) → now3 ≤ entry.expiresAt) := by
  refine ⟨?_, ?_, ?_, ?_⟩
  · simp [BrowserCache.get, hb, hexp]
  · simp [getCachedSearch, hs, hexp2]
  · intro st3 key3 now3 d st4 h
    unfold BrowserCache.get at h
    cases hl : lookupKey key3 st3 with
    | none => rw [hl] at h; simp at h
    | some it =>
      rw [hl] at h
      by_cases he : now3 > it.expiresAt
      · simp [he] at h
      · simp [he] at h
        exact ⟨it, rfl, Int.not_lt.mp he, h.1.symm⟩
  · intro sp qh3 now3 entry sp2 h
    unfold getCachedSearch at h
    cases hl : lookupKey qh3 sp.searchRows with
    | none => rw [hl] at h; simp at h
    | some row3 =>
      rw [hl] at h
      by_cases he : row3.expiresAt < now3
      · simp [he] at h
      · simp [he] at h
        rw [← h.1]
        exact Int.not_lt.mp he

/-- Witness for C8: a browser entry expired at time 3600001 and a durable
row (the demo entry, `expiresAt = 3600000`) expired at the same time. -/
theorem cache_tiers_never_serve_expired_witness :
    lookupKey "search_k" [("search_k", CacheItem.mk (.search demoEntry) 0 10)] =
      some (CacheItem.mk (.search demoEntry) 0 10) ∧
    (3600001:Int) > 10 ∧
    lookupKey "h" (SupaState.mk [("h", demoEntry)] []).searchRows = some demoEntry ∧
    demoEntry.expiresAt < (3600001:Int) ∧
    (BrowserCache.get [("search_k", CacheItem.mk (.search demoEntry) 0 10)] "search_k" 3600001 =
       (none, deleteKey "search_k" [("search_k", CacheItem.mk (.search demoEntry) 0 10)]) ∧
     getCachedSearch .ok (SupaState.mk [("h", demoEntry)] []) 3600001 "h" =
       .ok (none, { SupaState.mk [("h", demoEntry)] [] with
                     searchRows := deleteKey "h" (SupaState.mk [("h", demoEntry)] []).searchRows }) ∧
     (∀ (st3 : BrowserStore) (key3 : String) (now3 : Int) (d : CacheData) (st4 : BrowserStore),
       BrowserCache.get st3 key3 now3 = (some d, st4) →
       ∃ it : CacheItem, lookupKey key3 st3 = some it ∧ now3 ≤ it.expiresAt ∧ d = it.data) ∧
     (∀ (sp : SupaState) (qh3 : String) (now3 : Int) (entry : SearchCacheEntry) (sp2 : SupaState),
       getCachedSearch .ok sp now3 qh3 = .ok (some entry, sp2) → now3 ≤ entry.expiresAt)) :=
  ⟨rfl, by decide, rfl, by decide,
   cache_tiers_never_serve_expired [("search_k", CacheItem.mk (.search demoEntry) 0 10)]
     "search_k" 3600001 (CacheItem.mk (.search demoEntry) 0 10)
     (SupaState.mk [("h", demoEntry)] []) "h" demoEntry
     rfl (by decide) rfl (by decide)⟩

/-- Claim C9: for a shared `RateLimiter` with `minInterval = I`, the grant
timestamp is recorded into `lastRequestTime` at permission time (the state
returned by `waitForNextRequest` already carries the grant, independent of
any subsequent upstream call), and two consecutive calls — the second
starting no earlier than the first grant, with nonnegative scheduler
latenesses — produce grant timestamps at least `I` apart. -/
theorem rateLimiter_min_spacing
    (I last now1 l1 now2 l2 : Int)
    (hl1 : 0 ≤ l1) (hl2 : 0 ≤ l2)
    (hseq : (RateLimiter.waitForNextRequest ⟨I, last⟩ now1 l1).1 ≤ now2) :
    (RateLimiter.waitForNextRequest ⟨I, last⟩ now1 l1).2.lastRequestTime =
      (RateLimiter.waitForNextRequest ⟨I, last⟩ now1 l1).1 ∧
    I ≤ (RateLimiter.waitForNextRequest
          (RateLimiter.waitForNextRequest ⟨I, last⟩ now1 l1).2 now2 l2).1 -
        (RateLimiter.waitForNextRequest ⟨I, last⟩ now1 l1).1 := by
  refine ⟨rfl, ?_⟩
  simp only [RateLimiter.waitForNextRequest] at hseq ⊢
  split_ifs at hseq ⊢ <;> omega

/-- Witness for C9: `I = 500`, first call at time 100 granted at 500,
second call at time 600 granted at 1000. -/
theorem rateLimiter_min_spacing_witness :
    (0:Int) ≤ 0 ∧
    (RateLimiter.waitForNextRequest ⟨500, 0⟩ 100 0).1 ≤ 600 ∧
    ((RateLimiter.waitForNextRequest ⟨500, 0⟩ 100 0).2.lastRequestTime =
       (RateLimiter.waitForNextRequest ⟨500, 0⟩ 100 0).1 ∧
     (500:Int) ≤ (RateLimiter.waitForNextRequest
          (RateLimiter.waitForNextRequest ⟨500, 0⟩ 100 0).2 600 0).1 -
        (RateLimiter.waitForNextRequest ⟨500, 0⟩ 100 0).1) :=
  ⟨le_refl 0, by decide,
   rateLimiter_min_spacing 500 0 100 0 600 0 (le_refl 0) (le_refl 0) (by decide)⟩

/-- Claim C10: in every `CacheResult` returned by `searchWithCaching` —
ephemeral-hit, durable-hit, fresh-fetch and top-level-failure paths —
`fromCache` is a subset of `successful`. -/
theorem cacheResult_fromCache_subset_successful
    (env : FetchEnv) (st : SysState) (q : String) (l : Nat)
    (res : CacheResult) (st2 : SysState) (n : Nat)
    (h : searchWithCaching env st q l = .ok (res, st2, n)) :
    res.fromCache ⊆ res.successful := by
  simp only [searchWithCaching] at h
  split at h
  next entry b1 heq =>
    simp only [Except.ok.injEq, Prod.mk.injEq] at h
    rw [← h.1]
    exact fun a ha => ha
  next b1 heq =>
    split at h
    next e heq2 => exact absurd h (by simp)
    next entry supa1 heq2 =>
      simp only [Except.ok.injEq, Prod.mk.injEq] at h
      rw [← h.1]
      exact fun a ha => ha
    next supa1 heq2 =>
      simp only [Except.ok.injEq] at h
      have hsub := fetchFromAPI_subset env ⟨b1, supa1⟩ q l (generateQueryHash q l)
      rw [h] at hsub
      exact hsub

/-- Witness for C10 at the top-level-failure path with an unclassified
batch error. -/
theorem cacheResult_fromCache_subset_successful_witness :
    searchWithCaching (batchFailEnv unclassifiedErr) emptyState "q" 10 =
      .ok (⟨[], 0, [], 10⟩, emptyState, 1) ∧
    (CacheResult.mk [] 0 [] 10).fromCache ⊆ (CacheResult.mk [] 0 [] 10).successful :=
  ⟨rfl, cacheResult_fromCache_subset_successful (batchFailEnv unclassifiedErr) emptyState
          "q" 10 ⟨[], 0, [], 10⟩ emptyState 1 rfl⟩
